import Mathlib

/-!
Verification of the omgflux-mcp-server logic (src/src/types.ts and the main
server file).  The JavaScript runtime is shallowly embedded: JS values that
can reach the validator are modelled by `JSValue`, JS numbers by `JSNum`
(exact rationals instead of IEEE doubles, plus NaN and the infinities), and
the runtime coercions `Number(..)`, `.toString()`, truthiness and `typeof`
are modelled by executable Lean functions.  The upstream HTTP payload is kept
opaque (a type parameter `α`), and `JSON.stringify(.., null, 2)` is modelled
by an arbitrary rendering function `render : α → String`.
-/

/-- Model of a JS number: NaN, the two infinities, or a finite value.
Finite values are exact rationals (the float rounding of the runtime is not
modelled; none of the verified properties depends on it). -/
inductive JSNum where
  | nan : JSNum
  | posInf : JSNum
  | negInf : JSNum
  | finite (q : ℚ) : JSNum
deriving DecidableEq

/-- JS `<` comparison on numbers: any comparison with NaN is false. -/
def JSNum.lt : JSNum → JSNum → Bool
  | .nan, _ => false
  | _, .nan => false
  | .posInf, _ => false
  | .negInf, .negInf => false
  | .negInf, _ => true
  | .finite _, .posInf => true
  | .finite a, .finite b => decide (a < b)
  | .finite _, .negInf => false

/-- JS `isNaN` on an already-coerced number. -/
def JSNum.isNaN : JSNum → Bool
  | .nan => true
  | _ => false

/-- JS `Number.isInteger`. -/
def JSNum.isInteger : JSNum → Bool
  | .finite q => decide (q.den = 1)
  | _ => false

/-- JS unary minus on numbers. -/
def JSNum.neg : JSNum → JSNum
  | .nan => .nan
  | .posInf => .negInf
  | .negInf => .posInf
  | .finite q => .finite (-q)

/-- Model of a JS value as it can reach `isValidImageGenerationArgs`.
Objects are modelled by the nine properties the program reads
(`prompt`, `image_prompt`, `image_prompt_strength`, `aspect_ratio`,
`safety_tolerance`, `seed`, `output_format`, `raw`, `response_format`,
in that order); an absent property is `vUndefined`. -/
inductive JSValue where
  | vUndefined : JSValue
  | vNull : JSValue
  | vBool (b : Bool) : JSValue
  | vNum (n : JSNum) : JSValue
  | vStr (s : String) : JSValue
  | vObj (prompt image_prompt image_prompt_strength aspect_ratio
      safety_tolerance seed output_format raw response_format : JSValue) : JSValue
deriving DecidableEq

/-- The `prompt` property (undefined on non-objects, as in JS after the
object guard). -/
def JSValue.prompt : JSValue → JSValue
  | .vObj p _ _ _ _ _ _ _ _ => p
  | _ => .vUndefined

/-- The `image_prompt` property. -/
def JSValue.image_prompt : JSValue → JSValue
  | .vObj _ ip _ _ _ _ _ _ _ => ip
  | _ => .vUndefined

/-- The `image_prompt_strength` property. -/
def JSValue.image_prompt_strength : JSValue → JSValue
  | .vObj _ _ ips _ _ _ _ _ _ => ips
  | _ => .vUndefined

/-- The `aspect_ratio` property. -/
def JSValue.aspect_ratio : JSValue → JSValue
  | .vObj _ _ _ ar _ _ _ _ _ => ar
  | _ => .vUndefined

/-- The `safety_tolerance` property. -/
def JSValue.safety_tolerance : JSValue → JSValue
  | .vObj _ _ _ _ t _ _ _ _ => t
  | _ => .vUndefined

/-- The `seed` property. -/
def JSValue.seed : JSValue → JSValue
  | .vObj _ _ _ _ _ sd _ _ _ => sd
  | _ => .vUndefined

/-- The `output_format` property. -/
def JSValue.output_format : JSValue → JSValue
  | .vObj _ _ _ _ _ _ o _ _ => o
  | _ => .vUndefined

/-- The `raw` property. -/
def JSValue.raw : JSValue → JSValue
  | .vObj _ _ _ _ _ _ _ r _ => r
  | _ => .vUndefined

/-- The `response_format` property. -/
def JSValue.response_format : JSValue → JSValue
  | .vObj _ _ _ _ _ _ _ _ rf => rf
  | _ => .vUndefined

/-- JS `typeof`. -/
def jsTypeof : JSValue → String
  | .vUndefined => "undefined"
  | .vNull => "object"
  | .vBool _ => "boolean"
  | .vNum _ => "number"
  | .vStr _ => "string"
  | .vObj _ _ _ _ _ _ _ _ _ => "object"

/-- JS truthiness (`if (x)`). -/
def jsTruthy : JSValue → Bool
  | .vUndefined => false
  | .vNull => false
  | .vBool b => b
  | .vNum .nan => false
  | .vNum (.finite q) => decide (q ≠ 0)
  | .vNum _ => true
  | .vStr s => decide (s ≠ "")
  | .vObj _ _ _ _ _ _ _ _ _ => true

/-- JS whitespace, as used by `String.prototype.trim` and ToNumber
(the common characters; exotic Unicode space separators are not modelled). -/
def jsWhitespace (c : Char) : Bool :=
  c = ' ' || c = '\t' || c = '\n' || c = '\r' ||
  c = Char.ofNat 11 || c = Char.ofNat 12 || c = Char.ofNat 160

/-- JS `String.prototype.trim` on a character list. -/
def jsTrimList (l : List Char) : List Char :=
  ((l.dropWhile jsWhitespace).reverse.dropWhile jsWhitespace).reverse

/-- JS `String.prototype.trim`. -/
def jsTrim (s : String) : String :=
  String.mk (jsTrimList s.toList)

/-- Numeric value of a list of decimal digit characters. -/
def digitsVal (l : List Char) : ℕ :=
  l.foldl (fun acc c => 10 * acc + (c.toNat - 48)) 0

/-- Value of a single hexadecimal digit character. -/
def hexDigitVal (c : Char) : ℕ :=
  if c.isDigit then c.toNat - 48
  else if 'a' ≤ c ∧ c ≤ 'f' then c.toNat - 87
  else if 'A' ≤ c ∧ c ≤ 'F' then c.toNat - 55
  else 0

/-- Numeric value of digits in a given radix. -/
def radixVal (r : ℕ) (l : List Char) : ℕ :=
  l.foldl (fun acc c => r * acc + hexDigitVal c) 0

/-- Is the character a hexadecimal digit? -/
def isHexDigit (c : Char) : Bool :=
  c.isDigit || ('a' ≤ c && c ≤ 'f') || ('A' ≤ c && c ≤ 'F')

/-- Is the character an octal digit? -/
def isOctDigit (c : Char) : Bool := '0' ≤ c && c ≤ '7'

/-- Is the character a binary digit? -/
def isBinDigit (c : Char) : Bool := c = '0' || c = '1'

/-- Parse the optional exponent part of a JS decimal numeric literal.
Returns `some e` when the remainder is empty or a well-formed exponent,
`none` when trailing garbage makes the whole literal invalid. -/
def parseExpPart : List Char → Option ℤ
  | [] => some 0
  | c :: rest =>
    if c = 'e' ∨ c = 'E' then
      match rest with
      | '+' :: ds =>
        if ds ≠ [] ∧ ds.all Char.isDigit then some (digitsVal ds) else none
      | '-' :: ds =>
        if ds ≠ [] ∧ ds.all Char.isDigit then some (-(digitsVal ds : ℤ)) else none
      | ds =>
        if ds ≠ [] ∧ ds.all Char.isDigit then some (digitsVal ds) else none
    else none

/-- Exact value of a decimal literal with integer digits, fraction digits
and exponent. -/
def decPartsVal (ints fracs : List Char) (e : ℤ) : ℚ :=
  ((digitsVal ints : ℚ) + (digitsVal fracs : ℚ) / (10 : ℚ) ^ fracs.length)
    * (10 : ℚ) ^ e

/-- Parse an (unsigned) JS decimal literal or `Infinity`. -/
def parseDecimal (l : List Char) : JSNum :=
  if l = "Infinity".toList then .posInf
  else
    let ints := l.takeWhile Char.isDigit
    let rest1 := l.dropWhile Char.isDigit
    match rest1 with
    | '.' :: rest2 =>
      let fracs := rest2.takeWhile Char.isDigit
      let rest3 := rest2.dropWhile Char.isDigit
      if ints = [] ∧ fracs = [] then .nan
      else
        match parseExpPart rest3 with
        | some e => .finite (decPartsVal ints fracs e)
        | none => .nan
    | _ =>
      if ints = [] then .nan
      else
        match parseExpPart rest1 with
        | some e => .finite (decPartsVal ints [] e)
        | none => .nan

/-- Parse a trimmed, non-empty JS string numeric literal (the string branch
of the runtime ToNumber coercion): optional sign with a decimal literal or
`Infinity`, or an unsigned hex / octal / binary literal. -/
def parseNumericLiteral (l : List Char) : JSNum :=
  match l with
  | '0' :: 'x' :: rest =>
    if rest ≠ [] ∧ rest.all isHexDigit then .finite (radixVal 16 rest) else .nan
  | '0' :: 'X' :: rest =>
    if rest ≠ [] ∧ rest.all isHexDigit then .finite (radixVal 16 rest) else .nan
  | '0' :: 'o' :: rest =>
    if rest ≠ [] ∧ rest.all isOctDigit then .finite (radixVal 8 rest) else .nan
  | '0' :: 'O' :: rest =>
    if rest ≠ [] ∧ rest.all isOctDigit then .finite (radixVal 8 rest) else .nan
  | '0' :: 'b' :: rest =>
    if rest ≠ [] ∧ rest.all isBinDigit then .finite (radixVal 2 rest) else .nan
  | '0' :: 'B' :: rest =>
    if rest ≠ [] ∧ rest.all isBinDigit then .finite (radixVal 2 rest) else .nan
  | '+' :: rest => parseDecimal rest
  | '-' :: rest => (parseDecimal rest).neg
  | _ => parseDecimal l

/-- The runtime ToNumber coercion on strings. -/
def jsStringToNumber (s : String) : JSNum :=
  let t := jsTrim s
  if t = "" then .finite 0 else parseNumericLiteral t.toList

/-- JS `Number(x)`: the runtime ToNumber coercion. -/
def toNumber : JSValue → JSNum
  | .vUndefined => .nan
  | .vNull => .finite 0
  | .vBool b => .finite (if b then 1 else 0)
  | .vNum n => n
  | .vStr s => jsStringToNumber s
  | .vObj _ _ _ _ _ _ _ _ _ => .nan

example : toNumber (.vStr "1.5") = .finite (3 / 2) := by
  simp [toNumber, jsStringToNumber, jsTrim, jsTrimList, jsWhitespace,
    parseNumericLiteral, parseDecimal, parseExpPart, decPartsVal, digitsVal]
  norm_num

example : toNumber (.vStr "  0x10 ") = .finite 16 := by decide
example : toNumber (.vStr "abc") = .nan := by decide
example : toNumber (.vStr "") = .finite 0 := by decide
example : toNumber (.vBool true) = .finite 1 := by decide

/-- Fraction digits of `n / d` (for `0 < n < d`), produced long-division
style; the fuel bounds the number of digits (exact for terminating
decimals, which covers every value a float prints). -/
def numToStringFrac : ℕ → ℕ → ℕ → List Char
  | 0, _, _ => []
  | _ + 1, 0, _ => []
  | fuel + 1, n, d =>
    Char.ofNat (48 + (n * 10) / d) :: numToStringFrac fuel ((n * 10) % d) d

/-- Plain decimal rendering of the non-negative rational `n / d`:
integer part, then a point and the fraction digits when non-zero. -/
def renderDecimal (n d : ℕ) : String :=
  if n % d = 0 then Nat.repr (n / d)
  else Nat.repr (n / d) ++ "." ++ String.mk (numToStringFrac 100 (n % d) d)

/-- Decimal exponent `e` of the positive rational `n / d`: the unique
integer with `n / d = m * 10 ^ e` for some `1 ≤ m < 10`. -/
def decExponent (n d : ℕ) : ℤ :=
  if n ≥ d then ((Nat.repr (n / d)).length : ℤ) - 1
  else
    let k0 := (Nat.repr d).length - (Nat.repr n).length
    if n * 10 ^ k0 < d then -((k0 : ℤ) + 1) else -(k0 : ℤ)

/-- Rendering of a JS number, following the `Number::toString` layout:
plain decimal notation for magnitudes in `[1e-6, 1e21)` (and for 0), and
exponential notation (`m e+k` / `m e-k` with one digit before the point)
outside that range.  Mantissa digits are the exact decimal digits of the
rational (the runtime prints the float's shortest round-trip digits, which
coincide for the terminating decimals a float prints). -/
def JSNum.render : JSNum → String
  | .nan => "NaN"
  | .posInf => "Infinity"
  | .negInf => "-Infinity"
  | .finite q =>
    if q = 0 then "0"
    else
      let sign := if q < 0 then "-" else ""
      let n := q.num.natAbs
      let d := q.den
      let e := decExponent n d
      if 21 ≤ e then
        sign ++ renderDecimal n (d * 10 ^ e.toNat) ++ "e+" ++ Nat.repr e.toNat
      else if e ≤ -7 then
        sign ++ renderDecimal (n * 10 ^ (-e).toNat) d ++ "e-" ++ Nat.repr (-e).toNat
      else
        sign ++ renderDecimal n d

/-- The runtime ToString abstract coercion `String(x)` — total, as applied
by `URLSearchParams.append` to the directly-appended (string-valued)
fields.  This is not the member call `x.toString()`, which throws on
`null`/`undefined`: that is `jsToStringM` below. -/
def jsToString : JSValue → String
  | .vUndefined => "undefined"
  | .vNull => "null"
  | .vBool b => if b then "true" else "false"
  | .vNum n => n.render
  | .vStr s => s
  | .vObj _ _ _ _ _ _ _ _ _ => "[object Object]"

/-- The member call `x.toString()`: a TypeError on `null` and `undefined`
(member access on them throws), the string coercion otherwise. -/
def jsToStringM : JSValue → Except String String
  | .vNull => .error "TypeError"
  | .vUndefined => .error "TypeError"
  | v => .ok (jsToString v)

example : (JSNum.finite 1500).render = "1500" := by decide
example : (JSNum.finite 1000000000000000000000).render = "1e+21" := by decide
example : (JSNum.finite 1500000000000000000000).render = "1.5e+21" := by decide
example : (JSNum.finite 100000000000000000000).render
  = "100000000000000000000" := by decide

/-- JS `Array.prototype.includes` on an array of string literals
(strict equality: a non-string value never matches). -/
def jsIncludes (l : List String) : JSValue → Bool
  | .vStr s => l.contains s
  | _ => false

/-- The `validRatios` array of `isValidImageGenerationArgs`. -/
def validRatios : List String :=
  ["21:9", "16:9", "3:2", "4:3", "5:4", "1:1", "4:5", "3:4", "2:3", "9:16", "9:21"]

/-- The check `isNaN(strength) || strength < 0 || strength > 1` on the
coerced `image_prompt_strength`. -/
def strengthBad (n : JSNum) : Prop :=
  n.isNaN = true ∨ n.lt (.finite 0) = true ∨ (JSNum.finite 1).lt n = true

instance (n : JSNum) : Decidable (strengthBad n) := by
  unfold strengthBad; infer_instance

/-- The check `!Number.isInteger(tolerance) || tolerance < 1 || tolerance > 6`
on the coerced `safety_tolerance`. -/
def toleranceBad (n : JSNum) : Prop :=
  ¬ n.isInteger = true ∨ n.lt (.finite 1) = true ∨ (JSNum.finite 6).lt n = true

instance (n : JSNum) : Decidable (toleranceBad n) := by
  unfold toleranceBad; infer_instance

/-- `isValidImageGenerationArgs` of src/src/types.ts.  The guard
`!args || typeof args !== 'object'` rejects exactly the non-object values
of `JSValue` (`null` is of type object but falsy), hence the outer match;
the remaining checks mirror the source's early-return chain in order. -/
def isValidImageGenerationArgs (args : JSValue) : Bool :=
  match args with
  | .vObj p ip ips ar t sd o r rf =>
    if jsTypeof p ≠ "string" ∨ jsTrim (jsToString p) = "" then false
    else if ip ≠ .vUndefined ∧ jsTypeof ip ≠ "string" then false
    else if ips ≠ .vUndefined ∧ strengthBad (toNumber ips) then false
    else if ar ≠ .vUndefined ∧ jsIncludes validRatios ar = false then false
    else if t ≠ .vUndefined ∧ toleranceBad (toNumber t) then false
    else if sd ≠ .vUndefined ∧ (toNumber sd).isInteger = false then false
    else if o ≠ .vUndefined ∧ jsIncludes ["jpg", "png"] o = false then false
    else if r ≠ .vUndefined ∧ jsTypeof r ≠ "boolean" then false
    else if rf ≠ .vUndefined ∧ jsIncludes ["url", "b64_json"] rf = false then false
    else true
  | _ => false

example : isValidImageGenerationArgs (.vObj (.vStr "a cat") .vUndefined .vUndefined
  .vUndefined .vUndefined .vUndefined .vUndefined .vUndefined .vUndefined) = true := by decide
example : isValidImageGenerationArgs (.vObj (.vStr "   ") .vUndefined .vUndefined
  .vUndefined .vUndefined .vUndefined .vUndefined .vUndefined .vUndefined) = false := by decide
example : isValidImageGenerationArgs .vNull = false := by decide
example : isValidImageGenerationArgs (.vObj (.vStr "x") .vUndefined (.vNum (.finite 1))
  .vUndefined (.vNum (.finite 6)) .vUndefined .vUndefined .vUndefined (.vStr "b64_json")) = true := by decide
example : isValidImageGenerationArgs (.vObj (.vStr "x") .vUndefined (.vNum (.finite 2))
  .vUndefined .vUndefined .vUndefined .vUndefined .vUndefined .vUndefined) = false := by decide

set_option maxHeartbeats 1000000 in
/-- Characterization of the validator on objects as a conjunction of
independent per-field conditions. -/
theorem isValid_vObj_iff (p ip ips ar t sd o r rf : JSValue) :
    isValidImageGenerationArgs (.vObj p ip ips ar t sd o r rf) = true ↔
      ((jsTypeof p = "string" ∧ jsTrim (jsToString p) ≠ "") ∧
       (ip = .vUndefined ∨ jsTypeof ip = "string") ∧
       (ips = .vUndefined ∨ ¬ strengthBad (toNumber ips)) ∧
       (ar = .vUndefined ∨ jsIncludes validRatios ar = true) ∧
       (t = .vUndefined ∨ ¬ toleranceBad (toNumber t)) ∧
       (sd = .vUndefined ∨ (toNumber sd).isInteger = true) ∧
       (o = .vUndefined ∨ jsIncludes ["jpg", "png"] o = true) ∧
       (r = .vUndefined ∨ jsTypeof r = "boolean") ∧
       (rf = .vUndefined ∨ jsIncludes ["url", "b64_json"] rf = true)) := by
  simp only [isValidImageGenerationArgs]
  split_ifs with h1 h2 h3 h4 h5 h6 h7 h8 h9
  · refine iff_of_false (by decide) ?_
    rintro ⟨⟨hp1, hp2⟩, -⟩
    exact h1.elim (fun h => h hp1) hp2
  · refine iff_of_false (by decide) ?_
    rintro ⟨-, hip, -⟩
    exact hip.elim h2.1 h2.2
  · refine iff_of_false (by decide) ?_
    rintro ⟨-, -, hips, -⟩
    exact hips.elim h3.1 (fun hn => hn h3.2)
  · refine iff_of_false (by decide) ?_
    rintro ⟨-, -, -, har, -⟩
    exact har.elim h4.1 (fun e => by simp [h4.2] at e)
  · refine iff_of_false (by decide) ?_
    rintro ⟨-, -, -, -, ht, -⟩
    exact ht.elim h5.1 (fun hn => hn h5.2)
  · refine iff_of_false (by decide) ?_
    rintro ⟨-, -, -, -, -, hsd, -⟩
    exact hsd.elim h6.1 (fun e => by simp [h6.2] at e)
  · refine iff_of_false (by decide) ?_
    rintro ⟨-, -, -, -, -, -, ho, -⟩
    exact ho.elim h7.1 (fun e => by simp [h7.2] at e)
  · refine iff_of_false (by decide) ?_
    rintro ⟨-, -, -, -, -, -, -, hr, -⟩
    exact hr.elim h8.1 h8.2
  · refine iff_of_false (by decide) ?_
    rintro ⟨-, -, -, -, -, -, -, -, hrf⟩
    exact hrf.elim h9.1 (fun e => by simp [h9.2] at e)
  · refine iff_of_true rfl ?_
    push_neg at h1 h2 h3 h4 h5 h6 h7 h8 h9
    exact ⟨h1, or_iff_not_imp_left.mpr h2, or_iff_not_imp_left.mpr h3,
      or_iff_not_imp_left.mpr (fun hne => Bool.ne_false_iff.mp (h4 hne)),
      or_iff_not_imp_left.mpr h5,
      or_iff_not_imp_left.mpr (fun hne => Bool.ne_false_iff.mp (h6 hne)),
      or_iff_not_imp_left.mpr (fun hne => Bool.ne_false_iff.mp (h7 hne)),
      or_iff_not_imp_left.mpr h8,
      or_iff_not_imp_left.mpr (fun hne => Bool.ne_false_iff.mp (h9 hne))⟩

/-- Is the value a (non-null) JS object?  (`null` is excluded: it is falsy,
so the source's `!args` guard rejects it.) -/
def isObjectValue : JSValue → Bool
  | .vObj _ _ _ _ _ _ _ _ _ => true
  | _ => false

/-- C5: the validator rejects every input that is not a non-null structured
object, and every object whose `prompt` is missing, not a string, or
empty / whitespace-only after trimming; it never accepts such an input. -/
theorem validator_rejects_nonobject_or_bad_prompt :
    (∀ v : JSValue, isObjectValue v = false → isValidImageGenerationArgs v = false) ∧
    (∀ p ip ips ar t sd o r rf : JSValue,
      (p = .vUndefined ∨ jsTypeof p ≠ "string" ∨ jsTrim (jsToString p) = "") →
      isValidImageGenerationArgs (.vObj p ip ips ar t sd o r rf) = false) := by
  constructor
  · intro v hv
    cases v <;> simp_all [isObjectValue, isValidImageGenerationArgs]
  · intro p ip ips ar t sd o r rf hbad
    rw [Bool.eq_false_iff]
    intro hval
    have hc := (isValid_vObj_iff p ip ips ar t sd o r rf).mp hval
    rcases hbad with hmiss | hty | htrim
    · subst hmiss; exact absurd hc.1.1 (by decide)
    · exact hty hc.1.1
    · exact hc.1.2 htrim

/-- Closed instances of `validator_rejects_nonobject_or_bad_prompt`:
`null`, a number, an object without `prompt`, and an object with a
whitespace-only prompt are all rejected. -/
theorem validator_rejects_nonobject_or_bad_prompt_witness :
    isValidImageGenerationArgs .vNull = false ∧
    isValidImageGenerationArgs (.vStr "prompt") = false ∧
    isValidImageGenerationArgs (.vObj .vUndefined .vUndefined .vUndefined .vUndefined
      .vUndefined .vUndefined .vUndefined .vUndefined .vUndefined) = false ∧
    isValidImageGenerationArgs (.vObj (.vStr " \t  ") .vUndefined .vUndefined .vUndefined
      .vUndefined .vUndefined .vUndefined .vUndefined .vUndefined) = false :=
  ⟨validator_rejects_nonobject_or_bad_prompt.1 .vNull (by decide),
   validator_rejects_nonobject_or_bad_prompt.1 (.vStr "prompt") (by decide),
   validator_rejects_nonobject_or_bad_prompt.2 .vUndefined .vUndefined .vUndefined
     .vUndefined .vUndefined .vUndefined .vUndefined .vUndefined .vUndefined
     (Or.inl rfl),
   validator_rejects_nonobject_or_bad_prompt.2 (.vStr " \t  ") .vUndefined .vUndefined
     .vUndefined .vUndefined .vUndefined .vUndefined .vUndefined .vUndefined
     (Or.inr (Or.inr (by decide)))⟩

/-- C6: with all other fields passing validation, a supplied
`image_prompt_strength` is rejected exactly by the check
`isNaN || < 0 || > 1` (not coercible, below 0, or above 1), and the
boundary values 0 and 1 are accepted. -/
theorem validator_strength_range (p ip ar t sd o r rf s : JSValue)
    (hothers : isValidImageGenerationArgs
      (.vObj p ip .vUndefined ar t sd o r rf) = true) :
    (s ≠ .vUndefined → strengthBad (toNumber s) →
      isValidImageGenerationArgs (.vObj p ip s ar t sd o r rf) = false) ∧
    isValidImageGenerationArgs (.vObj p ip (.vNum (.finite 0)) ar t sd o r rf) = true ∧
    isValidImageGenerationArgs (.vObj p ip (.vNum (.finite 1)) ar t sd o r rf) = true := by
  have hc := (isValid_vObj_iff p ip .vUndefined ar t sd o r rf).mp hothers
  refine ⟨?_, ?_, ?_⟩
  · intro hne hbad
    rw [Bool.eq_false_iff]
    intro hval
    have hc2 := (isValid_vObj_iff p ip s ar t sd o r rf).mp hval
    exact hc2.2.2.1.elim hne (fun hn => hn hbad)
  · exact (isValid_vObj_iff p ip (.vNum (.finite 0)) ar t sd o r rf).mpr
      ⟨hc.1, hc.2.1, Or.inr (by decide), hc.2.2.2.1, hc.2.2.2.2.1,
        hc.2.2.2.2.2.1, hc.2.2.2.2.2.2.1, hc.2.2.2.2.2.2.2.1, hc.2.2.2.2.2.2.2.2⟩
  · exact (isValid_vObj_iff p ip (.vNum (.finite 1)) ar t sd o r rf).mpr
      ⟨hc.1, hc.2.1, Or.inr (by decide), hc.2.2.2.1, hc.2.2.2.2.1,
        hc.2.2.2.2.2.1, hc.2.2.2.2.2.2.1, hc.2.2.2.2.2.2.2.1, hc.2.2.2.2.2.2.2.2⟩

/-- Closed instances of `validator_strength_range`: strength 2 and a
non-numeric string are rejected, strengths 0 and 1 are accepted. -/
theorem validator_strength_range_witness :
    isValidImageGenerationArgs (.vObj (.vStr "a cat") .vUndefined (.vNum (.finite 2))
      .vUndefined .vUndefined .vUndefined .vUndefined .vUndefined .vUndefined) = false ∧
    isValidImageGenerationArgs (.vObj (.vStr "a cat") .vUndefined (.vNum (.finite (-1)))
      .vUndefined .vUndefined .vUndefined .vUndefined .vUndefined .vUndefined) = false ∧
    isValidImageGenerationArgs (.vObj (.vStr "a cat") .vUndefined (.vStr "xyz")
      .vUndefined .vUndefined .vUndefined .vUndefined .vUndefined .vUndefined) = false ∧
    isValidImageGenerationArgs (.vObj (.vStr "a cat") .vUndefined (.vNum (.finite 0))
      .vUndefined .vUndefined .vUndefined .vUndefined .vUndefined .vUndefined) = true ∧
    isValidImageGenerationArgs (.vObj (.vStr "a cat") .vUndefined (.vNum (.finite 1))
      .vUndefined .vUndefined .vUndefined .vUndefined .vUndefined .vUndefined) = true :=
  ⟨(validator_strength_range (.vStr "a cat") .vUndefined .vUndefined .vUndefined
      .vUndefined .vUndefined .vUndefined .vUndefined (.vNum (.finite 2))
      (by decide)).1 (by decide) (by decide),
   (validator_strength_range (.vStr "a cat") .vUndefined .vUndefined .vUndefined
      .vUndefined .vUndefined .vUndefined .vUndefined (.vNum (.finite (-1)))
      (by decide)).1 (by decide) (by decide),
   (validator_strength_range (.vStr "a cat") .vUndefined .vUndefined .vUndefined
      .vUndefined .vUndefined .vUndefined .vUndefined (.vStr "xyz")
      (by decide)).1 (by decide) (by decide),
   (validator_strength_range (.vStr "a cat") .vUndefined .vUndefined .vUndefined
      .vUndefined .vUndefined .vUndefined .vUndefined .vUndefined (by decide)).2.1,
   (validator_strength_range (.vStr "a cat") .vUndefined .vUndefined .vUndefined
      .vUndefined .vUndefined .vUndefined .vUndefined .vUndefined (by decide)).2.2⟩

/-- C7: with all other fields passing validation, a supplied
`safety_tolerance` is rejected exactly by the check
`!Number.isInteger || < 1 || > 6`, and the boundary values 1 and 6 are
accepted. -/
theorem validator_tolerance_range (p ip ips ar sd o r rf t : JSValue)
    (hothers : isValidImageGenerationArgs
      (.vObj p ip ips ar .vUndefined sd o r rf) = true) :
    (t ≠ .vUndefined → toleranceBad (toNumber t) →
      isValidImageGenerationArgs (.vObj p ip ips ar t sd o r rf) = false) ∧
    isValidImageGenerationArgs (.vObj p ip ips ar (.vNum (.finite 1)) sd o r rf) = true ∧
    isValidImageGenerationArgs (.vObj p ip ips ar (.vNum (.finite 6)) sd o r rf) = true := by
  have hc := (isValid_vObj_iff p ip ips ar .vUndefined sd o r rf).mp hothers
  refine ⟨?_, ?_, ?_⟩
  · intro hne hbad
    rw [Bool.eq_false_iff]
    intro hval
    have hc2 := (isValid_vObj_iff p ip ips ar t sd o r rf).mp hval
    exact hc2.2.2.2.2.1.elim hne (fun hn => hn hbad)
  · exact (isValid_vObj_iff p ip ips ar (.vNum (.finite 1)) sd o r rf).mpr
      ⟨hc.1, hc.2.1, hc.2.2.1, hc.2.2.2.1, Or.inr (by decide),
        hc.2.2.2.2.2.1, hc.2.2.2.2.2.2.1, hc.2.2.2.2.2.2.2.1, hc.2.2.2.2.2.2.2.2⟩
  · exact (isValid_vObj_iff p ip ips ar (.vNum (.finite 6)) sd o r rf).mpr
      ⟨hc.1, hc.2.1, hc.2.2.1, hc.2.2.2.1, Or.inr (by decide),
        hc.2.2.2.2.2.1, hc.2.2.2.2.2.2.1, hc.2.2.2.2.2.2.2.1, hc.2.2.2.2.2.2.2.2⟩

/-- Closed instances of `validator_tolerance_range`: tolerances 0 and 7
are rejected, tolerances 1 and 6 are accepted. -/
theorem validator_tolerance_range_witness :
    isValidImageGenerationArgs (.vObj (.vStr "a cat") .vUndefined .vUndefined
      .vUndefined (.vNum (.finite 0)) .vUndefined .vUndefined .vUndefined .vUndefined) = false ∧
    isValidImageGenerationArgs (.vObj (.vStr "a cat") .vUndefined .vUndefined
      .vUndefined (.vNum (.finite 7)) .vUndefined .vUndefined .vUndefined .vUndefined) = false ∧
    isValidImageGenerationArgs (.vObj (.vStr "a cat") .vUndefined .vUndefined
      .vUndefined (.vNum (.finite 1)) .vUndefined .vUndefined .vUndefined .vUndefined) = true ∧
    isValidImageGenerationArgs (.vObj (.vStr "a cat") .vUndefined .vUndefined
      .vUndefined (.vNum (.finite 6)) .vUndefined .vUndefined .vUndefined .vUndefined) = true :=
  ⟨(validator_tolerance_range (.vStr "a cat") .vUndefined .vUndefined .vUndefined
      .vUndefined .vUndefined .vUndefined .vUndefined (.vNum (.finite 0))
      (by decide)).1 (by decide) (by decide),
   (validator_tolerance_range (.vStr "a cat") .vUndefined .vUndefined .vUndefined
      .vUndefined .vUndefined .vUndefined .vUndefined (.vNum (.finite 7))
      (by decide)).1 (by decide) (by decide),
   (validator_tolerance_range (.vStr "a cat") .vUndefined .vUndefined .vUndefined
      .vUndefined .vUndefined .vUndefined .vUndefined .vUndefined (by decide)).2.1,
   (validator_tolerance_range (.vStr "a cat") .vUndefined .vUndefined .vUndefined
      .vUndefined .vUndefined .vUndefined .vUndefined .vUndefined (by decide)).2.2⟩

/-- C9: with all other fields passing validation, a supplied
`response_format` is accepted exactly when it is the string "url" or the
string "b64_json" (so "b64_json" is accepted by the validator even though
the advertised tool schema only lists "url"). -/
theorem validator_response_format_members (p ip ips ar t sd o r v : JSValue)
    (hothers : isValidImageGenerationArgs
      (.vObj p ip ips ar t sd o r .vUndefined) = true)
    (hv : v ≠ .vUndefined) :
    isValidImageGenerationArgs (.vObj p ip ips ar t sd o r v) = true ↔
      (v = .vStr "url" ∨ v = .vStr "b64_json") := by
  have hc := (isValid_vObj_iff p ip ips ar t sd o r .vUndefined).mp hothers
  constructor
  · intro hval
    have hc2 := (isValid_vObj_iff p ip ips ar t sd o r v).mp hval
    rcases hc2.2.2.2.2.2.2.2.2 with he | hinc
    · exact absurd he hv
    · cases v with
      | vStr s =>
        have hs : s = "url" ∨ s = "b64_json" := by
          simp [jsIncludes, List.contains_eq_any_beq] at hinc
          tauto
        rcases hs with h | h
        · exact Or.inl (by rw [h])
        · exact Or.inr (by rw [h])
      | vUndefined => exact absurd rfl hv
      | vNull => exact absurd hinc (by decide)
      | vBool b => exact absurd hinc (by simp [jsIncludes])
      | vNum n => exact absurd hinc (by simp [jsIncludes])
      | vObj a b c d e f g h i => exact absurd hinc (by simp [jsIncludes])
  · intro hv2
    refine (isValid_vObj_iff p ip ips ar t sd o r v).mpr
      ⟨hc.1, hc.2.1, hc.2.2.1, hc.2.2.2.1, hc.2.2.2.2.1, hc.2.2.2.2.2.1,
        hc.2.2.2.2.2.2.1, hc.2.2.2.2.2.2.2.1, Or.inr ?_⟩
    rcases hv2 with h | h <;> subst h <;> decide

/-- Closed instances of `validator_response_format_members`: "b64_json" and
"url" are accepted, "URL" is rejected. -/
theorem validator_response_format_members_witness :
    isValidImageGenerationArgs (.vObj (.vStr "a cat") .vUndefined .vUndefined
      .vUndefined .vUndefined .vUndefined .vUndefined .vUndefined (.vStr "b64_json")) = true ∧
    isValidImageGenerationArgs (.vObj (.vStr "a cat") .vUndefined .vUndefined
      .vUndefined .vUndefined .vUndefined .vUndefined .vUndefined (.vStr "url")) = true ∧
    isValidImageGenerationArgs (.vObj (.vStr "a cat") .vUndefined .vUndefined
      .vUndefined .vUndefined .vUndefined .vUndefined .vUndefined (.vStr "URL")) = false :=
  ⟨(validator_response_format_members (.vStr "a cat") .vUndefined .vUndefined
      .vUndefined .vUndefined .vUndefined .vUndefined .vUndefined (.vStr "b64_json")
      (by decide) (by decide)).mpr (Or.inr rfl),
   (validator_response_format_members (.vStr "a cat") .vUndefined .vUndefined
      .vUndefined .vUndefined .vUndefined .vUndefined .vUndefined (.vStr "url")
      (by decide) (by decide)).mpr (Or.inl rfl),
   Bool.eq_false_iff.mpr (fun hval =>
     by rcases (validator_response_format_members (.vStr "a cat") .vUndefined .vUndefined
          .vUndefined .vUndefined .vUndefined .vUndefined .vUndefined (.vStr "URL")
          (by decide) (by decide)).mp hval with h | h <;> simp at h)⟩

/-- `MAX_CACHED_GENERATIONS` of `OHMYGPT_API_CONFIG`. -/
def MAX_CACHED_GENERATIONS : ℕ := 5

/-- The fixed model identifier `OHMYGPT_API_CONFIG.DEFAULT_PARAMS.model`
(the only default the request builder uses). -/
def MODEL_ID : String := "flux-1.1-pro-ultra"

/-- A cached generation (`ImageGeneration` of src/src/types.ts).  The
upstream payload `response` is opaque JSON, modelled by a type parameter. -/
structure ImageGeneration (α : Type) where
  prompt : String
  response : α
  timestamp : String
deriving DecidableEq

/-- Outcome of the single upstream `POST` (the adapter's environment):
either a successful JSON payload, an axios (transport/HTTP-layer) error
with an optional structured message in the error body plus the underlying
error message, or any other thrown error. -/
inductive UpstreamResult (α : Type) where
  | success (data : α) : UpstreamResult α
  | axiosError (respMessage : Option String) (message : String) : UpstreamResult α
  | otherError (message : String) : UpstreamResult α
deriving DecidableEq

/-- Error codes of the MCP SDK used by the server. -/
inductive ErrorCode where
  | InvalidRequest : ErrorCode
  | InvalidParams : ErrorCode
  | MethodNotFound : ErrorCode
deriving DecidableEq

/-- One entry of a tool result's `content` array (always `type: "text"`
in this server). -/
structure Content where
  ctype : String
  text : String
deriving DecidableEq

/-- What `handleGenerateImageTool` does towards the host: throw a
protocol-level `McpError`, return a tool result (with `isError` flag), or
rethrow a non-axios error unchanged. -/
inductive ToolOutcome where
  | thrown (code : ErrorCode) (message : String) : ToolOutcome
  | result (content : List Content) (isError : Bool) : ToolOutcome
  | rethrown (message : String) : ToolOutcome
deriving DecidableEq

/-- Result of one `handleGenerateImageTool` call: the outcome towards the
host, the new `recentImageGenerations` cache, and whether the upstream
HTTP call was performed. -/
structure HandlerResult (α : Type) where
  outcome : ToolOutcome
  cache : List (ImageGeneration α)
  calledUpstream : Bool
deriving DecidableEq

/-- One `formData.append(name, v.toString())` under a `!== undefined`
guard: appends nothing when the value is absent, throws the TypeError of
`null.toString()` / `undefined.toString()` when the member call fails, and
appends the stringified value otherwise. -/
def appendToString (name : String) (v : JSValue) :
    Except String (List (String × String)) :=
  if v ≠ .vUndefined then
    match jsToStringM v with
    | .ok s => .ok [(name, s)]
    | .error e => .error e
  else .ok []

/-- The `URLSearchParams` body built in `handleGenerateImageTool`
(lines 185-197 of the server source): the fixed model id and the prompt,
then each optional parameter under the source's guard — truthiness for the
string-typed fields (appended directly, so coerced with the total
`String(x)`), `!== undefined` for the number/boolean-typed fields (with an
explicit `.toString()` member call, which throws a TypeError on `null`).
The `Except` propagates that TypeError: where the source throws, no wire
form is built. -/
def buildFormData (args : JSValue) :
    Except String (List (String × String)) := do
  let b2 ← appendToString "image_prompt_strength" args.image_prompt_strength
  let b4 ← appendToString "safety_tolerance" args.safety_tolerance
  let b5 ← appendToString "seed" args.seed
  let b7 ← appendToString "raw" args.raw
  pure ([("model", MODEL_ID), ("prompt", jsToString args.prompt)]
    ++ (if jsTruthy args.image_prompt then
          [("image_prompt", jsToString args.image_prompt)] else [])
    ++ b2
    ++ (if jsTruthy args.aspect_ratio then
          [("aspect_ratio", jsToString args.aspect_ratio)] else [])
    ++ b4 ++ b5
    ++ (if jsTruthy args.output_format then
          [("output_format", jsToString args.output_format)] else [])
    ++ b7
    ++ (if jsTruthy args.response_format then
          [("response_format", jsToString args.response_format)] else []))

/-- `handleGenerateImageTool`.  `render` stands for
`JSON.stringify(.., null, 2)` on the opaque payload, `timestamp` for
`new Date().toISOString()`, and `upstream` for the outcome of the POST. -/
def handleGenerateImageTool (render : α → String) (args : JSValue)
    (upstream : UpstreamResult α) (timestamp : String)
    (st : List (ImageGeneration α)) : HandlerResult α :=
  if isValidImageGenerationArgs args = false then
    ⟨.thrown .InvalidParams "Invalid image generation arguments", st, false⟩
  else
    match upstream with
    | .success data =>
      let st1 := ⟨jsToString args.prompt, data, timestamp⟩ :: st
      let st2 := if st1.length > MAX_CACHED_GENERATIONS then st1.dropLast else st1
      ⟨.result [⟨"text", render data⟩] false, st2, true⟩
    | .axiosError respMessage message =>
      ⟨.result [⟨"text", "OhMyGPT API error: " ++ respMessage.getD message⟩] true,
        st, true⟩
    | .otherError message => ⟨.rethrown message, st, true⟩

/-- One tool-call operation: the raw arguments plus the environment of the
call (upstream outcome and timestamp). -/
structure ToolCallOp (α : Type) where
  args : JSValue
  upstream : UpstreamResult α
  timestamp : String

/-- The cache transition of one tool call. -/
def cacheStep (render : α → String) (st : List (ImageGeneration α))
    (op : ToolCallOp α) : List (ImageGeneration α) :=
  (handleGenerateImageTool render op.args op.upstream op.timestamp st).cache

/-- The cache after a sequence of tool calls starting from the empty
cache. -/
def runOps (render : α → String) (ops : List (ToolCallOp α)) :
    List (ImageGeneration α) :=
  ops.foldl (cacheStep render) []

/-- The payload of a successful upstream outcome. -/
def UpstreamResult.successData [Inhabited α] : UpstreamResult α → α
  | .success data => data
  | _ => default

/-- The cache record a successful tool call inserts. -/
def opRecord [Inhabited α] (op : ToolCallOp α) : ImageGeneration α :=
  ⟨jsToString op.args.prompt, op.upstream.successData, op.timestamp⟩

/-- Did the upstream call succeed? -/
def UpstreamResult.isSuccess : UpstreamResult α → Bool
  | .success _ => true
  | _ => false

/-- A fully successful generation: valid arguments and a successful
upstream call. -/
def successfulOp (op : ToolCallOp α) : Prop :=
  isValidImageGenerationArgs op.args = true ∧ op.upstream.isSuccess = true

instance (op : ToolCallOp α) : Decidable (successfulOp op) := by
  unfold successfulOp; infer_instance

/-- A successful call on a valid request pushes the new record at the
front and truncates to the cap. -/
theorem handle_success_cache_take (render : α → String) (args : JSValue)
    (d : α) (ts : String) (st : List (ImageGeneration α))
    (hval : isValidImageGenerationArgs args = true)
    (hlen : st.length ≤ MAX_CACHED_GENERATIONS) :
    (handleGenerateImageTool render args (.success d) ts st).cache
      = (⟨jsToString args.prompt, d, ts⟩ :: st).take MAX_CACHED_GENERATIONS := by
  unfold handleGenerateImageTool
  rw [if_neg (by simp [hval])]
  simp only [MAX_CACHED_GENERATIONS] at *
  by_cases h5 : st.length = 5
  · rw [if_pos (by simp [h5])]
    have hd := List.dropLast_eq_take
      (l := (⟨jsToString args.prompt, d, ts⟩ : ImageGeneration α) :: st)
    simp only [List.length_cons, h5] at hd
    simpa using hd
  · rw [if_neg (by simp; omega)]
    exact (List.take_of_length_le (by simp; omega)).symm

/-- Every tool call keeps the cache within the cap. -/
theorem handle_cache_length_le (render : α → String) (args : JSValue)
    (upstream : UpstreamResult α) (ts : String) (st : List (ImageGeneration α))
    (hlen : st.length ≤ MAX_CACHED_GENERATIONS) :
    (handleGenerateImageTool render args upstream ts st).cache.length
      ≤ MAX_CACHED_GENERATIONS := by
  unfold handleGenerateImageTool
  simp only [MAX_CACHED_GENERATIONS] at *
  by_cases hval : isValidImageGenerationArgs args = false
  · rw [if_pos hval]; exact hlen
  · rw [if_neg hval]
    cases upstream with
    | success data =>
      dsimp only
      by_cases h6 : st.length + 1 > 5
      · rw [if_pos (by simpa using h6)]
        simp [List.length_dropLast]
        exact hlen
      · rw [if_neg (by simpa using h6)]
        simp
        omega
    | axiosError respMessage message => exact hlen
    | otherError message => exact hlen

/-- Absorption of an inner truncation on the right of an append. -/
theorem take_append_take (xs ys : List β) (n : ℕ) :
    (xs ++ ys.take n).take n = (xs ++ ys).take n := by
  rw [List.take_append_eq_append_take, List.take_append_eq_append_take,
    List.take_take]
  congr 1
  rw [min_eq_left (Nat.sub_le n xs.length)]

/-- Folding the cache step over any operation list preserves the
cap bound. -/
theorem foldl_cacheStep_length (render : α → String) (ops : List (ToolCallOp α)) :
    ∀ st : List (ImageGeneration α), st.length ≤ MAX_CACHED_GENERATIONS →
      (ops.foldl (cacheStep render) st).length ≤ MAX_CACHED_GENERATIONS := by
  induction ops with
  | nil => intro st h; exact h
  | cons op rest ih =>
    intro st h
    exact ih _ (handle_cache_length_le render op.args op.upstream op.timestamp st h)

/-- Folding the cache step over all-successful operations produces exactly
the most recent records, newest first, truncated to the cap. -/
theorem foldl_cacheStep_success [Inhabited α] (render : α → String)
    (ops : List (ToolCallOp α)) (hops : ∀ op ∈ ops, successfulOp op) :
    ∀ st : List (ImageGeneration α), st.length ≤ MAX_CACHED_GENERATIONS →
      ops.foldl (cacheStep render) st
        = ((ops.map opRecord).reverse ++ st).take MAX_CACHED_GENERATIONS := by
  induction ops with
  | nil =>
    intro st h
    exact (List.take_of_length_le (by simpa using h)).symm
  | cons op rest ih =>
    intro st h
    obtain ⟨hval, hsucc⟩ := hops op (by simp)
    have hstep : cacheStep render st op
        = (opRecord op :: st).take MAX_CACHED_GENERATIONS := by
      unfold cacheStep opRecord
      rcases hu : op.upstream with d | rm | m
      · simp only [UpstreamResult.successData]
        exact handle_success_cache_take render op.args d op.timestamp st hval h
      · rw [hu] at hsucc; exact absurd hsucc (by simp [UpstreamResult.isSuccess])
      · rw [hu] at hsucc; exact absurd hsucc (by simp [UpstreamResult.isSuccess])
    rw [List.foldl_cons, ih (fun o ho => hops o (by simp [ho])) _
      (by rw [hstep]; simp), hstep]
    rw [take_append_take]
    simp only [List.map_cons, List.reverse_cons, List.append_assoc,
      List.cons_append, List.nil_append]

/-- C1: starting from the empty cache, after any sequence of tool calls the
cache length never exceeds the cap 5; a successful generation inserts its
record at the front and, exactly when the cache is at capacity, evicts the
last (oldest) entry; after a sequence of N successful generations the cache
is exactly the last min(N,5) records, newest first. -/
theorem cache_bounded_newest_first_eviction [Inhabited α] (render : α → String) :
    (∀ ops : List (ToolCallOp α),
      (runOps render ops).length ≤ MAX_CACHED_GENERATIONS) ∧
    (∀ (args : JSValue) (d : α) (ts : String) (st : List (ImageGeneration α)),
      isValidImageGenerationArgs args = true → st.length ≤ MAX_CACHED_GENERATIONS →
      (handleGenerateImageTool render args (.success d) ts st).cache
        = (⟨jsToString args.prompt, d, ts⟩ :: st).take MAX_CACHED_GENERATIONS) ∧
    (∀ (args : JSValue) (d : α) (ts : String) (st : List (ImageGeneration α)),
      isValidImageGenerationArgs args = true → st.length = MAX_CACHED_GENERATIONS →
      (handleGenerateImageTool render args (.success d) ts st).cache
        = ⟨jsToString args.prompt, d, ts⟩ :: st.dropLast) ∧
    (∀ ops : List (ToolCallOp α), (∀ op ∈ ops, successfulOp op) →
      runOps render ops = (ops.map opRecord).reverse.take MAX_CACHED_GENERATIONS ∧
      (runOps render ops).length = min ops.length MAX_CACHED_GENERATIONS) := by
  refine ⟨?_, ?_, ?_, ?_⟩
  · intro ops
    exact foldl_cacheStep_length render ops [] (by simp [MAX_CACHED_GENERATIONS])
  · exact fun args d ts st hval hlen =>
      handle_success_cache_take render args d ts st hval hlen
  · intro args d ts st hval hlen
    rw [handle_success_cache_take render args d ts st hval (le_of_eq hlen)]
    rw [show MAX_CACHED_GENERATIONS = 4 + 1 from rfl, List.take_succ_cons]
    congr 1
    rw [List.dropLast_eq_take st, hlen]
    rfl
  · intro ops hops
    have h := foldl_cacheStep_success render ops hops [] (by simp [MAX_CACHED_GENERATIONS])
    rw [List.append_nil] at h
    have h2 : runOps render ops
        = (ops.map opRecord).reverse.take MAX_CACHED_GENERATIONS := by
      rw [runOps]; exact h
    refine ⟨h2, ?_⟩
    rw [h2]
    simp only [List.length_take, List.length_reverse, List.length_map]
    omega

/-- A minimal valid request used by concrete witnesses. -/
def goodArgs : JSValue :=
  .vObj (.vStr "a cat") .vUndefined .vUndefined .vUndefined .vUndefined
    .vUndefined .vUndefined .vUndefined .vUndefined

/-- Closed instances of `cache_bounded_newest_first_eviction`: six
successful generations leave exactly the five most recent records, newest
first (the 6th insertion evicted the 1st), and a mixed sequence stays
within the cap. -/
theorem cache_bounded_newest_first_eviction_witness :
    runOps (fun n : ℕ => Nat.repr n)
      [⟨goodArgs, .success 1, "t1"⟩, ⟨goodArgs, .success 2, "t2"⟩,
       ⟨goodArgs, .success 3, "t3"⟩, ⟨goodArgs, .success 4, "t4"⟩,
       ⟨goodArgs, .success 5, "t5"⟩, ⟨goodArgs, .success 6, "t6"⟩]
      = [⟨"a cat", 6, "t6"⟩, ⟨"a cat", 5, "t5"⟩, ⟨"a cat", 4, "t4"⟩,
         ⟨"a cat", 3, "t3"⟩, ⟨"a cat", 2, "t2"⟩] ∧
    (runOps (fun n : ℕ => Nat.repr n)
      [⟨goodArgs, .success 1, "t1"⟩, ⟨.vNull, .success 2, "t2"⟩,
       ⟨goodArgs, .axiosError none "boom", "t3"⟩]).length
      ≤ MAX_CACHED_GENERATIONS :=
  ⟨(((cache_bounded_newest_first_eviction (α := ℕ) (fun n : ℕ => Nat.repr n)).2.2.2
      [⟨goodArgs, .success 1, "t1"⟩, ⟨goodArgs, .success 2, "t2"⟩,
       ⟨goodArgs, .success 3, "t3"⟩, ⟨goodArgs, .success 4, "t4"⟩,
       ⟨goodArgs, .success 5, "t5"⟩, ⟨goodArgs, .success 6, "t6"⟩]
      (by decide)).1).trans (by decide),
   (cache_bounded_newest_first_eviction (α := ℕ) (fun n : ℕ => Nat.repr n)).1
      [⟨goodArgs, .success 1, "t1"⟩, ⟨.vNull, .success 2, "t2"⟩,
       ⟨goodArgs, .axiosError none "boom", "t3"⟩]⟩

/-- C8: a tool call with arguments rejected by the validator throws a
protocol-level invalid-parameters `McpError`, performs no upstream HTTP
call, and leaves the cache untouched — for every upstream environment. -/
theorem invalid_args_protocol_error_no_call (render : α → String) (args : JSValue)
    (upstream : UpstreamResult α) (ts : String) (st : List (ImageGeneration α))
    (hinv : isValidImageGenerationArgs args = false) :
    handleGenerateImageTool render args upstream ts st
      = ⟨.thrown .InvalidParams "Invalid image generation arguments", st, false⟩ := by
  unfold handleGenerateImageTool
  rw [if_pos hinv]

/-- Closed instance of `invalid_args_protocol_error_no_call`: a malformed
request (whitespace-only prompt) with a would-be-successful upstream. -/
theorem invalid_args_protocol_error_no_call_witness :
    handleGenerateImageTool (fun n : ℕ => Nat.repr n)
      (.vObj (.vStr "  ") .vUndefined .vUndefined .vUndefined .vUndefined
        .vUndefined .vUndefined .vUndefined .vUndefined)
      (.success 7) "t" [⟨"old", 1, "t0"⟩]
      = ⟨.thrown .InvalidParams "Invalid image generation arguments",
          [⟨"old", 1, "t0"⟩], false⟩ :=
  invalid_args_protocol_error_no_call (fun n : ℕ => Nat.repr n)
    (.vObj (.vStr "  ") .vUndefined .vUndefined .vUndefined .vUndefined
      .vUndefined .vUndefined .vUndefined .vUndefined)
    (.success 7) "t" [⟨"old", 1, "t0"⟩] (by decide)

/-- C10: when the upstream call of a validated request fails — whether the
failure is an axios error (converted to a tool-level error result) or any
other error (rethrown) — the cache is left exactly as it was. -/
theorem upstream_failure_leaves_cache_unchanged (render : α → String)
    (args : JSValue) (ts : String) (st : List (ImageGeneration α))
    (hval : isValidImageGenerationArgs args = true) :
    (∀ (rm : Option String) (m : String),
      (handleGenerateImageTool render args (.axiosError rm m) ts st).cache = st) ∧
    (∀ m : String,
      (handleGenerateImageTool render args (.otherError m) ts st).cache = st) := by
  constructor
  · intro rm m
    unfold handleGenerateImageTool
    rw [if_neg (by simp [hval])]
  · intro m
    unfold handleGenerateImageTool
    rw [if_neg (by simp [hval])]

/-- Closed instances of `upstream_failure_leaves_cache_unchanged` on a
non-empty cache. -/
theorem upstream_failure_leaves_cache_unchanged_witness :
    (handleGenerateImageTool (fun n : ℕ => Nat.repr n) goodArgs
      (.axiosError (some "quota exceeded") "Request failed") "t"
      [⟨"old", 1, "t0"⟩]).cache = [⟨"old", 1, "t0"⟩] ∧
    (handleGenerateImageTool (fun n : ℕ => Nat.repr n) goodArgs
      (.otherError "TypeError") "t" [⟨"old", 1, "t0"⟩]).cache
      = [⟨"old", 1, "t0"⟩] :=
  ⟨(upstream_failure_leaves_cache_unchanged (fun n : ℕ => Nat.repr n) goodArgs
      "t" [⟨"old", 1, "t0"⟩] (by decide)).1 (some "quota exceeded") "Request failed",
   (upstream_failure_leaves_cache_unchanged (fun n : ℕ => Nat.repr n) goodArgs
      "t" [⟨"old", 1, "t0"⟩] (by decide)).2 "TypeError"⟩

/-- C3: on a validated request, an axios (transport/HTTP) failure yields a
non-fatal tool-level error result whose text is the fixed prefix followed
by the upstream body's message when present, else the underlying error's
message; any non-axios failure is rethrown unchanged to the host. -/
theorem axios_error_tool_result_other_rethrown (render : α → String)
    (args : JSValue) (ts : String) (st : List (ImageGeneration α))
    (hval : isValidImageGenerationArgs args = true) :
    (∀ (bm m : String),
      (handleGenerateImageTool render args (.axiosError (some bm) m) ts st).outcome
        = .result [⟨"text", "OhMyGPT API error: " ++ bm⟩] true) ∧
    (∀ m : String,
      (handleGenerateImageTool render args (.axiosError none m) ts st).outcome
        = .result [⟨"text", "OhMyGPT API error: " ++ m⟩] true) ∧
    (∀ m : String,
      (handleGenerateImageTool render args (.otherError m) ts st).outcome
        = .rethrown m) := by
  refine ⟨?_, ?_, ?_⟩ <;>
    intros <;> unfold handleGenerateImageTool <;> rw [if_neg (by simp [hval])] <;> rfl

/-- Closed instances of `axios_error_tool_result_other_rethrown`: a
structured upstream error body surfaces its message in the tool error
text; a plain transport error surfaces the error's own message; a
non-axios error is rethrown. -/
theorem axios_error_tool_result_other_rethrown_witness :
    (handleGenerateImageTool (fun n : ℕ => Nat.repr n) goodArgs
      (.axiosError (some "quota exceeded") "Request failed with status code 429")
      "t" []).outcome
      = .result [⟨"text", "OhMyGPT API error: quota exceeded"⟩] true ∧
    (handleGenerateImageTool (fun n : ℕ => Nat.repr n) goodArgs
      (.axiosError none "socket hang up") "t" []).outcome
      = .result [⟨"text", "OhMyGPT API error: socket hang up"⟩] true ∧
    (handleGenerateImageTool (fun n : ℕ => Nat.repr n) goodArgs
      (.otherError "TypeError: x is not a function") "t" []).outcome
      = .rethrown "TypeError: x is not a function" :=
  ⟨(axios_error_tool_result_other_rethrown (fun n : ℕ => Nat.repr n) goodArgs
      "t" [] (by decide)).1 "quota exceeded" "Request failed with status code 429",
   (axios_error_tool_result_other_rethrown (fun n : ℕ => Nat.repr n) goodArgs
      "t" [] (by decide)).2.1 "socket hang up",
   (axios_error_tool_result_other_rethrown (fun n : ℕ => Nat.repr n) goodArgs
      "t" [] (by decide)).2.2 "TypeError: x is not a function"⟩

/-- For a value that validation constrains to be an (optional) string, the
source's truthiness guard keeps it exactly when it is present and not the
empty string. -/
theorem truthy_if_of_string (x : JSValue)
    (hx : x = .vUndefined ∨ jsTypeof x = "string") (kv : List (String × String)) :
    (if jsTruthy x then kv else [])
      = (if x ≠ .vUndefined ∧ x ≠ .vStr "" then kv else []) := by
  rcases hx with he | hty
  · subst he; simp [jsTruthy]
  · cases x with
    | vStr s =>
      by_cases hs : s = ""
      · subst hs; simp [jsTruthy]
      · simp [jsTruthy, hs]
    | vUndefined => simp [jsTruthy]
    | vNull => exact absurd hty (by simp [jsTypeof])
    | vBool b => exact absurd hty (by simp [jsTypeof])
    | vNum n => exact absurd hty (by simp [jsTypeof])
    | vObj a b c d e f g h i => exact absurd hty (by simp [jsTypeof])

/-- For a value that validation constrains to a fixed list of non-empty
strings, the source's truthiness guard is exactly a presence test. -/
theorem truthy_if_of_enum (x : JSValue) (l : List String)
    (hx : x = .vUndefined ∨ jsIncludes l x = true) (hne : "" ∉ l)
    (kv : List (String × String)) :
    (if jsTruthy x then kv else []) = (if x ≠ .vUndefined then kv else []) := by
  rcases hx with he | hinc
  · subst he; simp [jsTruthy]
  · cases x with
    | vStr s =>
      have hs : s ≠ "" := by
        intro he
        subst he
        rw [jsIncludes, List.contains_eq_any_beq, List.any_eq_true] at hinc
        obtain ⟨x, hx, hbeq⟩ := hinc
        rw [beq_iff_eq] at hbeq
        subst hbeq
        exact hne hx
      simp [jsTruthy, hs]
    | vUndefined => simp [jsTruthy]
    | vNull => exact absurd hinc (by simp [jsIncludes])
    | vBool b => exact absurd hinc (by simp [jsIncludes])
    | vNum n => exact absurd hinc (by simp [jsIncludes])
    | vObj a b c d e f g h i => exact absurd hinc (by simp [jsIncludes])

/-- A validated request with `image_prompt` present as the empty string:
accepted by the validator, yet its wire form has no `image_prompt` key. -/
def emptyImagePromptArgs : JSValue :=
  .vObj (.vStr "a cat") (.vStr "") .vUndefined .vUndefined .vUndefined
    .vUndefined .vUndefined .vUndefined .vUndefined

/-- A validated request whose `image_prompt_strength` is `null`: accepted
by the validator (`Number(null)` is 0, inside [0,1]), but the builder's
`params.image_prompt_strength.toString()` throws a TypeError, so no wire
form is ever built. -/
def nullStrengthArgs : JSValue :=
  .vObj (.vStr "a cat") .vUndefined .vNull .vUndefined .vUndefined
    .vUndefined .vUndefined .vUndefined .vUndefined

/-- C2 counterexample.  Two validator-accepted requests falsify "the wire
form contains each optional field that is present in the validated
request, serialized as its string form": with `image_prompt` present as
the empty string the truthiness guard omits the field from the wire form,
and with `image_prompt_strength` present as `null` the `.toString()`
member call throws a TypeError before any wire form exists. -/
theorem formdata_counterexample :
    (isValidImageGenerationArgs emptyImagePromptArgs = true ∧
     emptyImagePromptArgs.image_prompt ≠ .vUndefined ∧
     buildFormData emptyImagePromptArgs
       = .ok [("model", MODEL_ID), ("prompt", "a cat")]) ∧
    (isValidImageGenerationArgs nullStrengthArgs = true ∧
     nullStrengthArgs.image_prompt_strength ≠ .vUndefined ∧
     buildFormData nullStrengthArgs = .error "TypeError") := by
  exact ⟨⟨by decide, by decide, rfl⟩, ⟨by decide, by decide, rfl⟩⟩

/-- A `.toString()`-guard append on a value that is not `null` cannot
throw: it is the stringified value when present, nothing when absent. -/
theorem appendToString_ok (name : String) (v : JSValue) (hv : v ≠ .vNull) :
    appendToString name v
      = .ok (if v ≠ .vUndefined then [(name, jsToString v)] else []) := by
  cases v with
  | vNull => exact absurd rfl hv
  | vUndefined => rfl
  | vBool b => rfl
  | vNum n => rfl
  | vStr s => rfl
  | vObj a b c d e f g h i => rfl

/-- C2 (amended): for every validator-accepted request, if
`image_prompt_strength` or `seed` is present as `null` — the only
validated values whose `.toString()` member call fails — the builder
throws a TypeError and no wire form is built; otherwise the wire form is
exactly the fixed model id and the prompt followed by the present optional
fields in source order, each stringified, except that an `image_prompt`
equal to the empty string is omitted (the builder tests the string-typed
optional fields for truthiness; after validation that distinction only
affects `image_prompt`, since the enum-constrained fields are never
empty).  Absent optional fields are omitted and no further defaults are
injected. -/
theorem formdata_fields_amended (p ip ips ar t sd o r rf : JSValue)
    (hval : isValidImageGenerationArgs (.vObj p ip ips ar t sd o r rf) = true) :
    ((ips = .vNull ∨ sd = .vNull) →
      buildFormData (.vObj p ip ips ar t sd o r rf) = .error "TypeError") ∧
    (ips ≠ .vNull → sd ≠ .vNull →
      buildFormData (.vObj p ip ips ar t sd o r rf)
        = .ok ([("model", MODEL_ID), ("prompt", jsToString p)]
          ++ (if ip ≠ .vUndefined ∧ ip ≠ .vStr "" then
                [("image_prompt", jsToString ip)] else [])
          ++ (if ips ≠ .vUndefined then
                [("image_prompt_strength", jsToString ips)] else [])
          ++ (if ar ≠ .vUndefined then [("aspect_ratio", jsToString ar)] else [])
          ++ (if t ≠ .vUndefined then [("safety_tolerance", jsToString t)] else [])
          ++ (if sd ≠ .vUndefined then [("seed", jsToString sd)] else [])
          ++ (if o ≠ .vUndefined then [("output_format", jsToString o)] else [])
          ++ (if r ≠ .vUndefined then [("raw", jsToString r)] else [])
          ++ (if rf ≠ .vUndefined then
                [("response_format", jsToString rf)] else []))) := by
  have hc := (isValid_vObj_iff p ip ips ar t sd o r rf).mp hval
  have ht : t ≠ .vNull := by
    rintro rfl
    rcases hc.2.2.2.2.1 with he | hok
    · exact absurd he (by decide)
    · exact hok (by decide)
  have hr : r ≠ .vNull := by
    rintro rfl
    rcases hc.2.2.2.2.2.2.2.1 with he | hok
    · exact absurd he (by decide)
    · exact absurd hok (by decide)
  constructor
  · intro hnull
    by_cases hips : ips = .vNull
    · subst hips
      rfl
    · have hsd : sd = .vNull := hnull.resolve_left hips
      subst hsd
      rw [buildFormData]
      simp only [JSValue.image_prompt_strength, JSValue.safety_tolerance,
        JSValue.seed]
      rw [appendToString_ok _ ips hips, appendToString_ok _ t ht]
      rfl
  · intro hips hsd
    rw [buildFormData]
    simp only [JSValue.prompt, JSValue.image_prompt, JSValue.image_prompt_strength,
      JSValue.aspect_ratio, JSValue.safety_tolerance, JSValue.seed,
      JSValue.output_format, JSValue.raw, JSValue.response_format]
    rw [appendToString_ok _ ips hips, appendToString_ok _ t ht,
      appendToString_ok _ sd hsd, appendToString_ok _ r hr]
    rw [truthy_if_of_string ip hc.2.1 _,
      truthy_if_of_enum ar validRatios hc.2.2.2.1 (by decide) _,
      truthy_if_of_enum o ["jpg", "png"] hc.2.2.2.2.2.2.1 (by decide) _,
      truthy_if_of_enum rf ["url", "b64_json"] hc.2.2.2.2.2.2.2.2 (by decide) _]
    rfl

/-- Closed instances of `formdata_fields_amended`: a fully populated valid
request and its exact wire form, and a valid request with a `null` seed on
which the builder throws instead of building a wire form. -/
theorem formdata_fields_amended_witness :
    buildFormData (.vObj (.vStr "a cat") (.vStr "http://img") (.vNum (.finite 1))
      (.vStr "16:9") (.vNum (.finite 6)) (.vNum (.finite 42)) (.vStr "png")
      (.vBool true) (.vStr "url"))
      = .ok [("model", "flux-1.1-pro-ultra"), ("prompt", "a cat"),
         ("image_prompt", "http://img"), ("image_prompt_strength", "1"),
         ("aspect_ratio", "16:9"), ("safety_tolerance", "6"), ("seed", "42"),
         ("output_format", "png"), ("raw", "true"), ("response_format", "url")] ∧
    buildFormData (.vObj (.vStr "a cat") .vUndefined .vUndefined .vUndefined
      .vUndefined .vNull .vUndefined .vUndefined .vUndefined)
      = .error "TypeError" :=
  ⟨(formdata_fields_amended (.vStr "a cat") (.vStr "http://img") (.vNum (.finite 1))
      (.vStr "16:9") (.vNum (.finite 6)) (.vNum (.finite 42)) (.vStr "png")
      (.vBool true) (.vStr "url") (by decide)).2 (by decide) (by decide),
   (formdata_fields_amended (.vStr "a cat") .vUndefined .vUndefined .vUndefined
      .vUndefined .vNull .vUndefined .vUndefined .vUndefined (by decide)).1
      (Or.inr rfl)⟩

/-- One element of a `ReadResource` reply's `contents` array. -/
structure ResourceContent where
  uri : String
  mimeType : String
  text : String
deriving DecidableEq

/-- A thrown `McpError` (code and message). -/
structure McpErrorShape where
  code : ErrorCode
  message : String
deriving DecidableEq

/-- The regex match `^ohmygpt:\/\/images\/(\d+)$` followed by `parseInt`:
`some i` when the URI is the fixed prefix followed by one or more decimal
digits, `none` otherwise. -/
def matchImageUri (uri : String) : Option ℕ :=
  let pre := "ohmygpt://images/".toList
  let l := uri.toList
  if pre.isPrefixOf l then
    let rest := l.drop pre.length
    if rest ≠ [] ∧ rest.all Char.isDigit then some (digitsVal rest) else none
  else none

/-- The `ReadResourceRequestSchema` handler of `setupResourceHandlers`:
looks the index up in the current cache; a hit returns the cached upstream
payload rendered as JSON text (`render` stands for
`JSON.stringify(.., null, 2)`), a miss throws a not-found `McpError`, and
a non-matching URI throws an unknown-resource `McpError`. -/
def readResource (render : α → String) (cache : List (ImageGeneration α))
    (uri : String) : Except McpErrorShape ResourceContent :=
  match matchImageUri uri with
  | some index =>
    match cache[index]? with
    | some generation =>
      .ok ⟨uri, "application/json", render generation.response⟩
    | none =>
      .error ⟨.InvalidRequest, "Image generation not found: " ++ Nat.repr index⟩
  | none => .error ⟨.InvalidRequest, "Unknown resource: " ++ uri⟩

/-- C4: reading an image resource URI carrying index `i` returns exactly
the `i`-th cached record's payload rendered as JSON text when `i` is in
range — in particular index 0 immediately after a successful generation
returns that generation's payload — and a controlled not-found error when
`i` is out of range. -/
theorem read_resource_by_index (render : α → String)
    (cache : List (ImageGeneration α)) (uri : String) (i : ℕ)
    (hm : matchImageUri uri = some i) :
    (∀ h : i < cache.length,
      readResource render cache uri
        = .ok ⟨uri, "application/json", render (cache.get ⟨i, h⟩).response⟩) ∧
    (cache.length ≤ i →
      readResource render cache uri
        = .error ⟨.InvalidRequest,
            "Image generation not found: " ++ Nat.repr i⟩) ∧
    (∀ (args : JSValue) (d : α) (ts : String) (st : List (ImageGeneration α)),
      isValidImageGenerationArgs args = true →
      readResource render
          (handleGenerateImageTool render args (.success d) ts st).cache
          "ohmygpt://images/0"
        = .ok ⟨"ohmygpt://images/0", "application/json", render d⟩) := by
  refine ⟨?_, ?_, ?_⟩
  · intro h
    unfold readResource
    rw [hm]
    dsimp only
    rw [List.getElem?_eq_getElem h]
    simp [List.get_eq_getElem]
  · intro h
    unfold readResource
    rw [hm]
    dsimp only
    rw [List.getElem?_eq_none h]
  · intro args d ts st hval
    have hcons : ∃ rest, (handleGenerateImageTool render args (.success d) ts st).cache
        = ⟨jsToString args.prompt, d, ts⟩ :: rest := by
      unfold handleGenerateImageTool
      rw [if_neg (by simp [hval])]
      dsimp only
      by_cases h6 : st.length + 1 > MAX_CACHED_GENERATIONS
      · rw [if_pos (by simpa using h6)]
        cases st with
        | nil => exact absurd h6 (by simp [MAX_CACHED_GENERATIONS])
        | cons a rest => exact ⟨(a :: rest).dropLast, rfl⟩
      · rw [if_neg (by simpa using h6)]
        exact ⟨st, rfl⟩
    obtain ⟨rest, hcons⟩ := hcons
    rw [hcons]
    unfold readResource
    rw [show matchImageUri "ohmygpt://images/0" = some 0 from by decide]
    dsimp only
    rw [List.getElem?_cons_zero]

/-- Closed instances of `read_resource_by_index`: index 1 of a two-entry
cache returns the second payload; index 5 of a three-entry cache is a
not-found error; index 0 right after a successful generation returns that
generation's payload. -/
theorem read_resource_by_index_witness :
    readResource (fun s : String => s)
      [⟨"p0", "payload0", "t0"⟩, ⟨"p1", "payload1", "t1"⟩] "ohmygpt://images/1"
      = .ok ⟨"ohmygpt://images/1", "application/json", "payload1"⟩ ∧
    readResource (fun s : String => s)
      [⟨"p0", "payload0", "t0"⟩, ⟨"p1", "payload1", "t1"⟩, ⟨"p2", "payload2", "t2"⟩]
      "ohmygpt://images/5"
      = .error ⟨.InvalidRequest, "Image generation not found: 5"⟩ ∧
    readResource (fun s : String => s)
      (handleGenerateImageTool (fun s : String => s) goodArgs
        (.success "fresh payload") "t" []).cache "ohmygpt://images/0"
      = .ok ⟨"ohmygpt://images/0", "application/json", "fresh payload"⟩ :=
  ⟨(read_resource_by_index (fun s : String => s)
      [⟨"p0", "payload0", "t0"⟩, ⟨"p1", "payload1", "t1"⟩] "ohmygpt://images/1" 1
      (by decide)).1 (by decide),
   (read_resource_by_index (fun s : String => s)
      [⟨"p0", "payload0", "t0"⟩, ⟨"p1", "payload1", "t1"⟩, ⟨"p2", "payload2", "t2"⟩]
      "ohmygpt://images/5" 5 (by decide)).2.1 (by decide),
   (read_resource_by_index (fun s : String => s) [] "ohmygpt://images/0" 0
      (by decide)).2.2 goodArgs "fresh payload" "t" [] (by decide)⟩
